import Mathlib

/-!
Shallow embedding of `src/nvdaHelper/common/GDIObject.h` (NVDA project):
a smart GDI object handle wrapper.

The C++ class holds a single `HGDIOBJ _hGDIObj` (a pointer, default
`nullptr`).  We model `HGDIOBJ` as `Option Nat`: `none` is `nullptr`,
`some v` a non-null handle value.  The external primitive
`DeleteObject` is opaque: we record each call's argument in a trace
(`List HGDIOBJ`), so every operation of the class is embedded as a pure
function returning the new wrapper state together with the list of the
`DeleteObject` calls it issued, in order.
-/

namespace GDIObjectModel

/-- HGDIOBJ handle values: `none` models `nullptr`. -/
abbrev HGDIOBJ := Option Nat

/-- HRGN is another Windows handle type; `operator HRGN()` reinterprets the
stored `HGDIOBJ` value via `static_cast`, which does not change the value,
so we model `HRGN` by the same value type. -/
abbrev HRGN := Option Nat

/-- The class state: the single private field `HGDIOBJ _hGDIObj {nullptr}`. -/
structure GDIObject where
  _hGDIObj : HGDIOBJ
deriving DecidableEq

/-- Constructor `GDIObject(HGDIOBJ h=nullptr): _hGDIObj(h) {}`:
adopts `h` with no validation and issues no release calls. -/
def GDIObject.construct (h : HGDIOBJ) : GDIObject := ⟨h⟩

/-- Member `destroy()` (the spec calls it `release()`):
`if(_hGDIObj) { DeleteObject(_hGDIObj); _hGDIObj=nullptr; }`.
Returns the new state and the trace of `DeleteObject` calls issued. -/
def GDIObject.destroy (s : GDIObject) : GDIObject × List HGDIOBJ :=
  if s._hGDIObj.isSome then ({ _hGDIObj := none }, [s._hGDIObj]) else (s, [])

/-- Member `operator=(HGDIOBJ h)` (the spec calls it `assign`):
`destroy(); _hGDIObj=h; return *this;`. -/
def GDIObject.assign (s : GDIObject) (h : HGDIOBJ) : GDIObject × List HGDIOBJ :=
  let p := s.destroy
  ({ _hGDIObj := h }, p.2)

/-- Member `operator HGDIOBJ()` (the spec calls it `asRawHandle()`):
`return _hGDIObj;` — it only reads the field. -/
def GDIObject.toHGDIOBJ (s : GDIObject) : HGDIOBJ := s._hGDIObj

/-- Member `operator HRGN()` (the spec calls it `asTypedAlias()`):
`return static_cast<HRGN>(_hGDIObj);` — the cast is value-preserving. -/
def GDIObject.toHRGN (s : GDIObject) : HRGN := s._hGDIObj

/-- Member `operator bool()` (the spec calls it `isValid()`):
`return static_cast<bool>(_hGDIObj);` — true iff the pointer is non-null. -/
def GDIObject.toBool (s : GDIObject) : Bool := s._hGDIObj.isSome

/-- Destructor `~GDIObject() { destroy(); }`: returns the trace of
`DeleteObject` calls issued when the wrapper's lifetime ends. -/
def GDIObject.dtor (s : GDIObject) : List HGDIOBJ := s.destroy.2

/-! Operation sequences on a single wrapper.  An adversarial caller may
interleave the public members in any order; the conversion operators read
the field and mutate nothing, so they return the state unchanged with an
empty trace. -/

/-- One public member call on a wrapper (besides construction/destruction). -/
inductive WrapperOp where
  | destroyOp : WrapperOp
  | assignOp (h : HGDIOBJ) : WrapperOp
  | convHGDIOBJ : WrapperOp
  | convHRGN : WrapperOp
  | convBool : WrapperOp
deriving DecidableEq

/-- Effect of one member call on the wrapper state. -/
def stepOp (s : GDIObject) : WrapperOp → GDIObject × List HGDIOBJ
  | .destroyOp => s.destroy
  | .assignOp h => s.assign h
  | .convHGDIOBJ => (s, [])
  | .convHRGN => (s, [])
  | .convBool => (s, [])

/-- Run a sequence of member calls, concatenating the release traces. -/
def runOps (s : GDIObject) : List WrapperOp → GDIObject × List HGDIOBJ
  | [] => (s, [])
  | op :: ops =>
    let p := stepOp s op
    let q := runOps p.1 ops
    (q.1, p.2 ++ q.2)

/-- Every `DeleteObject` call the wrapper makes over a full lifetime:
construct with `h`, perform `ops`, then run the destructor. -/
def lifetimeLog (h : HGDIOBJ) (ops : List WrapperOp) : List HGDIOBJ :=
  (runOps (GDIObject.construct h) ops).2 ++ (runOps (GDIObject.construct h) ops).1.dtor

/-! Resource-allocation model (for the "still allocated while owned"
invariant).  `alloc` is the set of currently allocated non-null handle
values; `DeleteObject (some v)` deallocates `v`. -/

/-- Apply a trace of `DeleteObject` calls to the allocation set. -/
def applyReleases (alloc : List Nat) : List HGDIOBJ → List Nat
  | [] => alloc
  | none :: rest => applyReleases alloc rest
  | some v :: rest => applyReleases (alloc.filter (fun w => w ≠ v)) rest

/-- A wrapper together with the allocation state of the OS resources. -/
structure ResState where
  obj : GDIObject
  alloc : List Nat
deriving DecidableEq

/-- One member call, also updating the allocation set. -/
def stepRes (r : ResState) (op : WrapperOp) : ResState :=
  let p := stepOp r.obj op
  ⟨p.1, applyReleases r.alloc p.2⟩

/-- Run a sequence of member calls over a `ResState`. -/
def runRes (r : ResState) : List WrapperOp → ResState
  | [] => r
  | op :: ops => runRes (stepRes r op) ops

/-- The claimed invariant: when the owned handle is non-null, the resource
it references is still allocated. -/
def stillAllocated (r : ResState) : Bool :=
  match r.obj._hGDIObj with
  | none => true
  | some v => decide (v ∈ r.alloc)

/-- Precondition on one call, used by the amended invariant: a handle passed
to `operator=` must be null, or be an allocated handle different from the
one the wrapper currently owns. -/
def okOp (r : ResState) : WrapperOp → Bool
  | .assignOp none => true
  | .assignOp (some v) => decide (v ∈ r.alloc) && decide (r.obj._hGDIObj ≠ some v)
  | _ => true

/-- Precondition on a whole call sequence. -/
def okSeq (r : ResState) : List WrapperOp → Bool
  | [] => true
  | op :: ops => okOp r op && okSeq (stepRes r op) ops

/-! Two wrappers side by side (for the ownership-transfer claim).  The
caller may call any member of either wrapper; an `assignOp` argument may be
any handle value, which in particular covers feeding one wrapper's
`operator HGDIOBJ()` result to the other's `operator=`. -/

/-- One member call on one of two wrappers. -/
inductive TwoOp where
  | destroy1 : TwoOp
  | destroy2 : TwoOp
  | assign1 (h : HGDIOBJ) : TwoOp
  | assign2 (h : HGDIOBJ) : TwoOp
deriving DecidableEq

/-- Effect of one call on the pair of wrappers. -/
def stepTwo (t : GDIObject × GDIObject) : TwoOp → (GDIObject × GDIObject) × List HGDIOBJ
  | .destroy1 => let p := t.1.destroy; ((p.1, t.2), p.2)
  | .destroy2 => let p := t.2.destroy; ((t.1, p.1), p.2)
  | .assign1 h => let p := t.1.assign h; ((p.1, t.2), p.2)
  | .assign2 h => let p := t.2.assign h; ((t.1, p.1), p.2)

/-- Run a sequence of calls on the pair, concatenating release traces. -/
def runTwo (t : GDIObject × GDIObject) : List TwoOp → (GDIObject × GDIObject) × List HGDIOBJ
  | [] => (t, [])
  | op :: ops =>
    let p := stepTwo t op
    let q := runTwo p.1 ops
    (q.1, p.2 ++ q.2)

/-! Spec-side definition for the refinement claim about `operator=`. -/

/-- Spec-side `release()`, written from the spec's words: "if an owned
handle is present, invokes the external release-handle primitive on it,
then clears the owned value to null"; otherwise a no-op. -/
def releaseSpec (s : GDIObject) : GDIObject × List HGDIOBJ :=
  match s._hGDIObj with
  | some v => (⟨none⟩, [some v])
  | none => (s, [])

/-- Spec-side `assign(newHandle)`, written from the spec's words:
"equivalent to release() followed by adopting newHandle as the new owned
value". -/
def assignSpec (s : GDIObject) (h : HGDIOBJ) : GDIObject × List HGDIOBJ :=
  let p := releaseSpec s
  (⟨h⟩, p.2)

/-! Helper lemmas. -/

/-- After `destroy()`, the stored handle is always null. -/
lemma destroy_fst_null (s : GDIObject) : s.destroy.1._hGDIObj = none := by
  obtain ⟨g⟩ := s; cases g <;> simp [GDIObject.destroy]

/-- `destroy()` never passes a null argument to `DeleteObject`. -/
lemma destroy_log_not_null (s : GDIObject) : none ∉ s.destroy.2 := by
  obtain ⟨g⟩ := s; cases g <;> simp [GDIObject.destroy]

/-- No single member call passes a null argument to `DeleteObject`. -/
lemma stepOp_log_not_null (s : GDIObject) (op : WrapperOp) : none ∉ (stepOp s op).2 := by
  cases op with
  | destroyOp => exact destroy_log_not_null s
  | assignOp h => exact destroy_log_not_null s
  | convHGDIOBJ => simp [stepOp]
  | convHRGN => simp [stepOp]
  | convBool => simp [stepOp]

/-- No member-call sequence passes a null argument to `DeleteObject`. -/
lemma runOps_log_not_null (s : GDIObject) (ops : List WrapperOp) :
    none ∉ (runOps s ops).2 := by
  induction ops generalizing s with
  | nil => simp [runOps]
  | cons op ops ih =>
    intro hmem
    rcases List.mem_append.mp hmem with h1 | h2
    · exact stepOp_log_not_null s op h1
    · exact ih (stepOp s op).1 h2

/-! The claims. -/

/-- C1: for every handle value h, constructing a wrapper with h and then
destroying it without any intervening operation invokes `DeleteObject`
exactly once with argument h if h is non-null, and zero times if h is
null. -/
theorem C1_construct_then_destruct_releases_once (h : HGDIOBJ) :
    GDIObject.dtor (GDIObject.construct h) = if h.isSome then [h] else [] := by
  cases h <;> rfl

/-- C3: `destroy()` (the spec's `release()`) is idempotent: a second call
right after a first changes nothing and the two calls together invoke
`DeleteObject` at most once; calling it on a wrapper owning no handle
changes nothing and invokes `DeleteObject` zero times. -/
theorem C3_release_idempotent (s : GDIObject) :
    (s.destroy.1.destroy = (s.destroy.1, []) ∧
      (s.destroy.2 ++ s.destroy.1.destroy.2).length ≤ 1) ∧
      GDIObject.destroy { _hGDIObj := none } = ({ _hGDIObj := none }, []) := by
  obtain ⟨g⟩ := s; cases g <;> simp [GDIObject.destroy]

/-- C6: `operator=` (the spec's `assign`) is equivalent to the spec-side
`release()` followed by adopting the new handle: same final owned value
and same sequence of `DeleteObject` calls. -/
theorem C6_assign_refines_release_then_adopt (s : GDIObject) (h : HGDIOBJ) :
    s.assign h = assignSpec s h := by
  obtain ⟨g⟩ := s; cases g <;> rfl

/-- C8: `operator bool` (the spec's `isValid()`) returns exactly the
non-nullness of the owned value: false on a default-constructed wrapper,
false immediately after `destroy()`, and it is a pure query — as a member
call it leaves the state unchanged and issues no release calls. -/
theorem C8_operator_bool_isValid (s : GDIObject) :
    s.toBool = s._hGDIObj.isSome ∧ (s.toBool = true ↔ s._hGDIObj ≠ none) ∧
      GDIObject.toBool { _hGDIObj := none } = false ∧
      s.destroy.1.toBool = false ∧
      stepOp s .convBool = (s, []) := by
  obtain ⟨g⟩ := s; cases g <;> simp [GDIObject.toBool, GDIObject.destroy, stepOp]

/-- C9: `operator HGDIOBJ` (the spec's `asRawHandle()`) returns exactly the
owned value and has no side effect; scenario: constructed with 42 it
returns `some 42` and `isValid` is true; `destroy()` calls `DeleteObject`
with 42, after which `isValid` is false and the raw handle is null. -/
theorem C9_operator_HGDIOBJ_frame (s : GDIObject) :
    s.toHGDIOBJ = s._hGDIObj ∧ stepOp s .convHGDIOBJ = (s, []) ∧
      (GDIObject.construct (some 42)).toHGDIOBJ = some 42 ∧
      (GDIObject.construct (some 42)).toBool = true ∧
      (GDIObject.construct (some 42)).destroy =
        ({ _hGDIObj := none }, [some 42]) ∧
      (GDIObject.construct (some 42)).destroy.1.toBool = false ∧
      (GDIObject.construct (some 42)).destroy.1.toHGDIOBJ = none :=
  ⟨rfl, rfl, rfl, rfl, by decide, by decide, by decide⟩

/-- C10: `operator HRGN` (the spec's `asTypedAlias()`) returns the same
underlying value as `operator HGDIOBJ` (the `static_cast` is
value-preserving in the model), returns null when nothing is owned, and
has no side effect on the wrapper state. -/
theorem C10_operator_HRGN_alias (s : GDIObject) :
    s.toHRGN = s.toHGDIOBJ ∧ stepOp s .convHRGN = (s, []) ∧
      GDIObject.toHRGN { _hGDIObj := none } = none :=
  ⟨rfl, rfl, rfl⟩

/-- C7: over a whole lifetime (construction with any handle, any sequence
of member calls, destruction) the wrapper never passes a null argument to
`DeleteObject`; and a default-constructed wrapper that is simply destroyed
triggers zero `DeleteObject` calls. -/
theorem C7_never_releases_null (h : HGDIOBJ) (ops : List WrapperOp) :
    none ∉ lifetimeLog h ops ∧ lifetimeLog none [] = [] := by
  constructor
  · intro hmem
    rcases List.mem_append.mp hmem with h1 | h2
    · exact runOps_log_not_null _ _ h1
    · exact destroy_log_not_null _ h2
  · rfl

/-- C2 counterexample: reassigning a wrapper that owns handle 1 to the same
value 1 does issue a `DeleteObject` call whose argument equals the new
handle h2 = some 1, contradicting "no release call is made with argument
h2 at assignment time" as universally stated. -/
theorem C2_counterexample :
    ((GDIObject.construct (some 1)).assign (some 1)).1._hGDIObj = some 1 ∧
      some 1 ∈ ((GDIObject.construct (some 1)).assign (some 1)).2 := by
  decide

/-- C2 (amended): reassigning a wrapper owning non-null h1 to h2 first runs
`destroy()`, which issues exactly one `DeleteObject` call with argument h1
and clears the owned value before h2 is adopted; afterwards the owned
value is h2; and provided h2 differs from h1, no release call with
argument h2 occurs. -/
theorem C2_assign_releases_old_once (h1 : Nat) (h2 : HGDIOBJ) :
    (GDIObject.construct (some h1)).destroy = ({ _hGDIObj := none }, [some h1]) ∧
      (GDIObject.construct (some h1)).assign h2 = ({ _hGDIObj := h2 }, [some h1]) ∧
      (h2 ≠ some h1 → h2 ∉ ((GDIObject.construct (some h1)).assign h2).2) := by
  refine ⟨?_, ?_, fun hne => ?_⟩ <;>
    simp [GDIObject.construct, GDIObject.destroy, GDIObject.assign]
  exact hne

/-- C2 witness: instance of the amended theorem at h1 = 5, h2 = 7, with the
inner hypothesis discharged. -/
theorem C2_assign_releases_old_once_witness :
    (GDIObject.construct (some 5)).destroy = ({ _hGDIObj := none }, [some 5]) ∧
      (GDIObject.construct (some 5)).assign (some 7) =
        ({ _hGDIObj := some 7 }, [some 5]) ∧
      (some 7 : HGDIOBJ) ∉ ((GDIObject.construct (some 5)).assign (some 7)).2 :=
  ⟨(C2_assign_releases_old_once 5 (some 7)).1,
    (C2_assign_releases_old_once 5 (some 7)).2.1,
    (C2_assign_releases_old_once 5 (some 7)).2.2 (by decide)⟩

/-- C4 counterexample: start with a wrapper owning handle 42 while 42 is
allocated (the claimed invariant holds); `operator=` with the same value
42 releases 42 and then re-adopts it, so afterwards the owned handle is
non-null yet its resource is no longer allocated. -/
theorem C4_counterexample :
    stillAllocated ⟨GDIObject.construct (some 42), [42]⟩ = true ∧
      (runRes ⟨GDIObject.construct (some 42), [42]⟩
        [WrapperOp.assignOp (some 42)]).obj._hGDIObj = some 42 ∧
      stillAllocated (runRes ⟨GDIObject.construct (some 42), [42]⟩
        [WrapperOp.assignOp (some 42)]) = false := by
  decide

/-- One member call preserves the allocation invariant when its argument
is acceptable: a handle passed to `operator=` is null or is an allocated
handle different from the currently owned one. -/
lemma stepRes_preserves_stillAllocated (r : ResState) (op : WrapperOp)
    (hInv : stillAllocated r = true) (hOk : okOp r op = true) :
    stillAllocated (stepRes r op) = true := by
  obtain ⟨⟨g⟩, alloc⟩ := r
  cases op with
  | destroyOp =>
    cases g <;> simp [stillAllocated, stepRes, stepOp, GDIObject.destroy]
  | assignOp h =>
    cases h with
    | none =>
      cases g <;>
        simp [stillAllocated, stepRes, stepOp, GDIObject.assign, GDIObject.destroy]
    | some v =>
      cases g with
      | none =>
        simp [okOp] at hOk
        simpa [stillAllocated, stepRes, stepOp, GDIObject.assign,
          GDIObject.destroy, applyReleases] using hOk
      | some w =>
        simp [okOp] at hOk
        have hvw : ¬v = w := fun hv => hOk.2 hv.symm
        simp [stillAllocated, stepRes, stepOp, GDIObject.assign,
          GDIObject.destroy, applyReleases, List.mem_filter]
        exact ⟨hOk.1, hvw⟩
  | convHGDIOBJ =>
    simpa [stillAllocated, stepRes, stepOp, applyReleases] using hInv
  | convHRGN =>
    simpa [stillAllocated, stepRes, stepOp, applyReleases] using hInv
  | convBool =>
    simpa [stillAllocated, stepRes, stepOp, applyReleases] using hInv

/-- C4 (amended): the invariant "a non-null owned handle references a
still-allocated resource" is preserved by every member-call sequence in
which each handle passed to `operator=` is null or is an allocated handle
different from the one currently owned. (The unamended claim fails when
`operator=` receives the handle the wrapper already owns; see the
counterexample.) -/
theorem C4_owned_handle_still_allocated (r : ResState) (ops : List WrapperOp)
    (hInv : stillAllocated r = true) (hOk : okSeq r ops = true) :
    stillAllocated (runRes r ops) = true := by
  induction ops generalizing r with
  | nil => exact hInv
  | cons op ops ih =>
    rw [okSeq, Bool.and_eq_true] at hOk
    exact ih (stepRes r op) (stepRes_preserves_stillAllocated r op hInv hOk.1) hOk.2

/-- C4 witness: instance of the amended theorem on a concrete state and
call sequence. -/
theorem C4_owned_handle_still_allocated_witness :
    stillAllocated (runRes ⟨GDIObject.construct (some 1), [1, 2]⟩
      [WrapperOp.assignOp (some 2), WrapperOp.destroyOp]) = true :=
  C4_owned_handle_still_allocated ⟨GDIObject.construct (some 1), [1, 2]⟩
    [WrapperOp.assignOp (some 2), WrapperOp.destroyOp] (by decide) (by decide)

/-- With two wrappers, as long as the first owns `some v`, any call
sequence either leaves it owning `some v` or has already issued a
`DeleteObject` call with argument `some v`. -/
lemma runTwo_keeps_first (v : Nat) (ops : List TwoOp) (t : GDIObject × GDIObject)
    (ht : t.1._hGDIObj = some v) :
    (runTwo t ops).1.1._hGDIObj = some v ∨ some v ∈ (runTwo t ops).2 := by
  induction ops generalizing t with
  | nil => exact Or.inl ht
  | cons op ops ih =>
    cases op with
    | destroy1 =>
      right
      simp [runTwo, stepTwo, GDIObject.destroy, ht]
    | assign1 h =>
      right
      simp [runTwo, stepTwo, GDIObject.assign, GDIObject.destroy, ht]
    | destroy2 =>
      rcases ih (stepTwo t .destroy2).1 ht with h1 | h1
      · exact Or.inl h1
      · exact Or.inr (List.mem_append.mpr (Or.inr h1))
    | assign2 h =>
      rcases ih (stepTwo t (.assign2 h)).1 ht with h1 | h1
      · exact Or.inl h1
      · exact Or.inr (List.mem_append.mpr (Or.inr h1))

/-- C5 counterexample: the class declares no move operation, and at the
concrete input (first wrapper owning 42, second empty) its members cannot
emulate one: handing the first wrapper's raw handle to the second
(`w2 = (HGDIOBJ)w1`, i.e. `assign2 (some 42)`) duplicates the live handle
42 into both wrappers without emptying the source and without any release
call, and then emptying the source (`destroy1`) issues a `DeleteObject`
call with 42 — the very handle the destination now holds — so the source
is never emptied while the destination owns a live 42. -/
theorem C5_counterexample :
    ((runTwo (GDIObject.construct (some 42), GDIObject.construct none)
        [TwoOp.assign2 (some 42)]).1.1._hGDIObj = some 42 ∧
      (runTwo (GDIObject.construct (some 42), GDIObject.construct none)
        [TwoOp.assign2 (some 42)]).1.2._hGDIObj = some 42 ∧
      (runTwo (GDIObject.construct (some 42), GDIObject.construct none)
        [TwoOp.assign2 (some 42)]).2 = []) ∧
      (runTwo (GDIObject.construct (some 42), GDIObject.construct none)
        [TwoOp.assign2 (some 42), TwoOp.destroy1]).1.1._hGDIObj = none ∧
      (runTwo (GDIObject.construct (some 42), GDIObject.construct none)
        [TwoOp.assign2 (some 42), TwoOp.destroy1]).1.2._hGDIObj = some 42 ∧
      (runTwo (GDIObject.construct (some 42), GDIObject.construct none)
        [TwoOp.assign2 (some 42), TwoOp.destroy1]).2 = [some 42] := by
  decide

/-- C5 (amended): copying is disallowed and no move operation exists
either: starting from a first wrapper owning `some v` and a second owning
nothing, every member-call sequence either leaves the first wrapper owning
`some v` or has issued a `DeleteObject` call with argument `some v` — the
handle can never silently migrate to the other wrapper. -/
theorem C5_no_transfer_without_release (v : Nat) (ops : List TwoOp) :
    (runTwo (GDIObject.construct (some v), GDIObject.construct none) ops).1.1._hGDIObj
        = some v ∨
      some v ∈ (runTwo (GDIObject.construct (some v), GDIObject.construct none) ops).2 :=
  runTwo_keeps_first v ops (GDIObject.construct (some v), GDIObject.construct none) rfl

end GDIObjectModel
